import Mathlib

/-!
Shallow embedding of src/main.py, a tool-calling demo: four validated tool
functions (math, unit_conversion, date_tool, text_analysis), a dispatcher
call_tool that normalizes outcomes to strings, and a conversation loop.

Modelling conventions:
* A Python int is an Int (exact at every magnitude).  A Python float is
  carried as the exact rational value of the binary64 double holding it,
  and float arithmetic rounds every result to 53 significant bits with
  round-to-nearest, ties-to-even, as IEEE division, addition and
  multiplication do; int/int division is the correctly rounded true
  quotient, as CPython computes it.  The finite exponent range of
  binary64 is not modelled: overflow to infinity, OverflowError on
  int-to-float conversion and gradual underflow require magnitudes
  beyond 1e308 or below 1e-308, reachable only through literals of
  hundreds of digits, and are outside the model.  Python str is String
  restricted to the characters the claims exercise (lowercasing is
  ASCII).
* A raised Python exception is an Except.error value.  PyErr.exc models an
  ordinary Exception (caught by the except Exception handler in call_tool);
  PyErr.baseExc models a BaseException outside the Exception hierarchy
  (SystemExit, raised for example by evaluating the builtin exit()), which
  that handler does not catch.
* The builtin eval is modelled on the fragment the tool is meant for:
  integer and decimal literals, single-quoted string literals, unary minus,
  + - * / and parentheses with the Python grammar and left associativity,
  plus the one builtin call exit() which raises SystemExit.
* A Python datetime.date is modelled by its proleptic Gregorian ordinal
  (date.toordinal), an Int constrained to 1 .. 3652059 (0001-01-01 to
  9999-12-31); date plus timedelta raises OverflowError outside that range.
-/

/-- The ASCII apostrophe character, used by Python string literals and by the
text_analysis output template. -/
def squote : Char := Char.ofNat 39

/-- Single-character string holding the apostrophe. -/
def apos : String := String.mk [squote]

/-- A raw JSON value as produced by json.loads on a tool-call argument
payload (the fragment the schemas use: strings, numbers, booleans, null). -/
inductive JsonVal where
  | jstr (s : String)
  | jnum (q : ℚ)
  | jbool (b : Bool)
  | jnull
deriving DecidableEq

/-- A raw argument mapping, as passed to call_tool. -/
def Params := List (String × JsonVal)

/-- Key lookup in a raw argument mapping (Python dict access / pydantic
field extraction). -/
def lookupParam : Params → String → Option JsonVal
  | [], _ => none
  | (k, v) :: rest, key => if k = key then some v else lookupParam rest key

/-- A raised Python exception.  exc is an ordinary Exception (ValueError,
TypeError, ZeroDivisionError, OverflowError, pydantic ValidationError ...);
baseExc is a BaseException outside the Exception hierarchy (SystemExit). -/
inductive PyErr where
  | exc (msg : String)
  | baseExc (msg : String)
deriving DecidableEq

/-- A Python number: an int (arbitrary precision, exact) or a float.
A float is carried as the exact rational value of the binary64 double
holding it (every finite double is a dyadic rational). -/
inductive PyNum where
  | pint (n : Int)
  | pfloat (q : ℚ)
deriving DecidableEq

/-- Rational value of a Python number. -/
def toRat : PyNum → ℚ
  | PyNum.pint n => (n : ℚ)
  | PyNum.pfloat q => q

/-- Floor of the base-2 logarithm, by repeated halving; the fuel
argument only makes the recursion structural (fuel = n suffices). -/
def log2F : Nat → Nat → Nat
  | 0, _ => 0
  | f + 1, n => if n ≤ 1 then 0 else log2F f (n / 2) + 1

/-- Floor of log2 of a positive natural number. -/
def natLog2 (n : Nat) : Nat := log2F n n

/-- Round a positive rational to 53 significant bits, round to nearest
with ties to even: scale m into [2^52, 2^53), round the scaled value to
an integer significand, and scale back.  This is how every finite IEEE
binary64 result arises from the exact value of an operation (the
exponent range being unbounded here, see the module comment). -/
def roundPos (m : ℚ) : ℚ :=
  let a := m.num.toNat
  let b := m.den
  let k := natLog2 b + 1
  let e : Int := (natLog2 (a * 2 ^ k / b) : Int) - k
  let sh : Int := 52 - e
  let A := if 0 ≤ sh then a * 2 ^ sh.toNat else a
  let B := if 0 ≤ sh then b else b * 2 ^ (-sh).toNat
  let qn := A / B
  let r := A % B
  let n := if 2 * r < B then qn
           else if B < 2 * r then qn + 1
           else if qn % 2 = 0 then qn else qn + 1
  if 0 ≤ e - 52 then (n : ℚ) * 2 ^ (e - 52).toNat
  else (n : ℚ) / 2 ^ (52 - e).toNat

/-- Round a rational to the nearest binary64 value (rounding is
symmetric in the sign). -/
def roundDouble (q : ℚ) : ℚ :=
  if q = 0 then 0
  else if 0 < q then roundPos q
  else -(roundPos (-q))

/-- Mantissa and exponent of the correctly rounded binary64 quotient of
two ints (divisor nonzero): the value denoted is mantissa * 2 ^ exponent
with 2^52 ≤ |mantissa| ≤ 2^53 (or 0).  Pure integer arithmetic,
mirroring how CPython rounds int / int without an intermediate float
conversion. -/
def roundQuotParts (a b : Int) : Int × Int :=
  let sgn : Bool := decide (a < 0) != decide (b < 0)
  let na := a.natAbs
  let nb := b.natAbs
  let k := natLog2 nb + 1
  let e : Int := (natLog2 (na * 2 ^ k / nb) : Int) - k
  let sh : Int := 52 - e
  let A := if 0 ≤ sh then na * 2 ^ sh.toNat else na
  let B := if 0 ≤ sh then nb else nb * 2 ^ (-sh).toNat
  let qn := A / B
  let r := A % B
  let n := if 2 * r < B then qn
           else if B < 2 * r then qn + 1
           else if qn % 2 = 0 then qn else qn + 1
  (if sgn then -(n : Int) else (n : Int), e - 52)

/-- Rational value of the correctly rounded binary64 quotient of two
ints (divisor nonzero). -/
def roundIntQuot (a b : Int) : ℚ :=
  if 0 ≤ (roundQuotParts a b).2 then
    ((roundQuotParts a b).1 : ℚ) * ((2 ^ (roundQuotParts a b).2.toNat : Nat) : ℚ)
  else
    ((roundQuotParts a b).1 : ℚ) / ((2 ^ (-(roundQuotParts a b).2).toNat : Nat) : ℚ)

/-- A Python value produced by eval on the modelled fragment: a number
or a str. -/
inductive PyVal where
  | num (v : PyNum)
  | str (s : String)
deriving DecidableEq

/-! ## The math tool: a model of Python eval on the arithmetic fragment -/

/-- Tokens of the modelled expression language. -/
inductive Tok where
  | num (v : PyNum)
  | litStr (s : String)
  | plus
  | minus
  | star
  | slash
  | lparen
  | rparen
deriving DecidableEq

/-- Numeric value of a decimal digit character. -/
def digitVal (c : Char) : Nat := c.toNat - 48

/-- Natural number denoted by a list of decimal digit characters. -/
def natOfDigits (ds : List Char) : Nat :=
  ds.foldl (fun a c => a * 10 + digitVal c) 0

/-- Rational denoted by an integer part and a list of fractional digits
(the Python literal 12.5 denotes 12 + 5/10, modelled exactly). -/
def ratOfParts (ip : Nat) (fs : List Char) : ℚ :=
  (ip : ℚ) + (natOfDigits fs : ℚ) / ((10 : ℚ) ^ fs.length)

/-- Fuel-indexed lexer for the modelled fragment: spaces, numeric
literals (an int literal is a Python int, a literal with a decimal point
is a Python float, rounded to the nearest double exactly as the Python
parser rounds it), single-quoted string literals without escapes, and
the operator and parenthesis characters.  Any other character is a syntax error (none).
Each step consumes at least one character, so fuel = length + 1 suffices. -/
def lexF : Nat → List Char → Option (List Tok)
  | _, [] => some []
  | 0, _ :: _ => none
  | f + 1, c :: cs =>
    if c = ' ' then lexF f cs
    else if c = '+' then (lexF f cs).map (fun ts => Tok.plus :: ts)
    else if c = '-' then (lexF f cs).map (fun ts => Tok.minus :: ts)
    else if c = '*' then (lexF f cs).map (fun ts => Tok.star :: ts)
    else if c = '/' then (lexF f cs).map (fun ts => Tok.slash :: ts)
    else if c = '(' then (lexF f cs).map (fun ts => Tok.lparen :: ts)
    else if c = ')' then (lexF f cs).map (fun ts => Tok.rparen :: ts)
    else if c.isDigit then
      let ds := (c :: cs).takeWhile Char.isDigit
      let rest := (c :: cs).dropWhile Char.isDigit
      match rest with
      | '.' :: rest2 =>
        let fs2 := rest2.takeWhile Char.isDigit
        let rest3 := rest2.dropWhile Char.isDigit
        (lexF f rest3).map (fun ts =>
          Tok.num (PyNum.pfloat (roundDouble (ratOfParts (natOfDigits ds) fs2))) :: ts)
      | _ =>
        (lexF f rest).map (fun ts =>
          Tok.num (PyNum.pint ((natOfDigits ds : Int))) :: ts)
    else if c = squote then
      let ss := cs.takeWhile (fun d => d ≠ squote)
      match cs.dropWhile (fun d => d ≠ squote) with
      | _ :: rest2 => (lexF f rest2).map (fun ts => Tok.litStr (String.mk ss) :: ts)
      | [] => none
    else none

/-- Lex a whole expression string. -/
def lexString (s : String) : Option (List Tok) :=
  lexF (s.toList.length + 1) s.toList

/-- Abstract syntax of the modelled expression fragment. -/
inductive Expr where
  | num (v : PyNum)
  | strLit (s : String)
  | neg (a : Expr)
  | add (a b : Expr)
  | sub (a b : Expr)
  | mul (a b : Expr)
  | div (a b : Expr)
deriving DecidableEq

mutual

/-- Parse an expression: term (( + | - ) term)*, left associative. -/
def parseE : Nat → List Tok → Option (Expr × List Tok)
  | 0, _ => none
  | f + 1, ts =>
    match parseT f ts with
    | none => none
    | some (e, ts1) => parseEL f e ts1

/-- Left-associative loop over + and - at the lowest precedence level. -/
def parseEL : Nat → Expr → List Tok → Option (Expr × List Tok)
  | 0, _, _ => none
  | f + 1, acc, ts =>
    match ts with
    | Tok.plus :: ts1 =>
      match parseT f ts1 with
      | none => none
      | some (e, ts2) => parseEL f (Expr.add acc e) ts2
    | Tok.minus :: ts1 =>
      match parseT f ts1 with
      | none => none
      | some (e, ts2) => parseEL f (Expr.sub acc e) ts2
    | _ => some (acc, ts)

/-- Parse a term: factor (( * | / ) factor)*, left associative. -/
def parseT : Nat → List Tok → Option (Expr × List Tok)
  | 0, _ => none
  | f + 1, ts =>
    match parseF f ts with
    | none => none
    | some (e, ts1) => parseTL f e ts1

/-- Left-associative loop over * and / at the middle precedence level. -/
def parseTL : Nat → Expr → List Tok → Option (Expr × List Tok)
  | 0, _, _ => none
  | f + 1, acc, ts =>
    match ts with
    | Tok.star :: ts1 =>
      match parseF f ts1 with
      | none => none
      | some (e, ts2) => parseTL f (Expr.mul acc e) ts2
    | Tok.slash :: ts1 =>
      match parseF f ts1 with
      | none => none
      | some (e, ts2) => parseTL f (Expr.div acc e) ts2
    | _ => some (acc, ts)

/-- Parse a factor: unary minus applied to a factor, or an atom (numeric
literal, string literal, parenthesized expression). -/
def parseF : Nat → List Tok → Option (Expr × List Tok)
  | 0, _ => none
  | f + 1, ts =>
    match ts with
    | Tok.minus :: ts1 =>
      match parseF f ts1 with
      | none => none
      | some (e, ts2) => some (Expr.neg e, ts2)
    | Tok.num q :: ts1 => some (Expr.num q, ts1)
    | Tok.litStr s :: ts1 => some (Expr.strLit s, ts1)
    | Tok.lparen :: ts1 =>
      match parseE f ts1 with
      | some (e, Tok.rparen :: ts2) => some (e, ts2)
      | _ => none
    | _ => none

end

/-- Parse a complete expression string: lex, parse, and require that all
tokens are consumed. -/
def parseExpr (s : String) : Option Expr :=
  match lexString s with
  | none => none
  | some ts =>
    match parseE (3 * ts.length + 3) ts with
    | some (e, []) => some e
    | _ => none

/-- String repetition, modelling Python str * int. -/
def strRepeat (n : Nat) (s : String) : String :=
  (List.replicate n s).foldl (fun a b => a ++ b) ""

/-- True when the rational is an integer (used by schema validation of
int fields). -/
def isIntQ (q : ℚ) : Bool := q.den = 1

/-- A Python number as the float operand of a float operation: float(int)
rounds an int to the nearest double. -/
def toF : PyNum → ℚ
  | PyNum.pint n => roundDouble (n : ℚ)
  | PyNum.pfloat q => q

/-- Python numeric negation (exact for both kinds, no rounding). -/
def negNum : PyNum → PyNum
  | PyNum.pint n => PyNum.pint (-n)
  | PyNum.pfloat q => PyNum.pfloat (-q)

/-- Python numeric addition: int + int is exact; with a float operand
both sides become floats and the IEEE result is the correctly rounded
true sum. -/
def addNum : PyNum → PyNum → PyNum
  | PyNum.pint a, PyNum.pint b => PyNum.pint (a + b)
  | x, y => PyNum.pfloat (roundDouble (toF x + toF y))

/-- Python numeric subtraction, like addNum. -/
def subNum : PyNum → PyNum → PyNum
  | PyNum.pint a, PyNum.pint b => PyNum.pint (a - b)
  | x, y => PyNum.pfloat (roundDouble (toF x - toF y))

/-- Python numeric multiplication, like addNum. -/
def mulNum : PyNum → PyNum → PyNum
  | PyNum.pint a, PyNum.pint b => PyNum.pint (a * b)
  | x, y => PyNum.pfloat (roundDouble (toF x * toF y))

/-- Python true division: always a float; int / int is the correctly
rounded true quotient (as CPython computes it without an intermediate
conversion), float division converts and rounds the true quotient; a
zero divisor raises ZeroDivisionError (an ordinary exception), with the
int and float messages of CPython. -/
def divNum : PyNum → PyNum → Except String PyNum
  | PyNum.pint a, PyNum.pint b =>
    if b = 0 then Except.error "division by zero"
    else Except.ok (PyNum.pfloat (roundIntQuot a b))
  | x, y =>
    if toF y = 0 then Except.error "float division by zero"
    else Except.ok (PyNum.pfloat (roundDouble (toF x / toF y)))

/-- Evaluate an expression, modelling Python operator semantics on the
fragment: exact int arithmetic, correctly rounded float arithmetic,
ZeroDivisionError on division by zero, str + str concatenation, int * str
and str * int repetition, and TypeError on the remaining mixed operand
combinations.  The left operand is evaluated first, as in Python. -/
def evalExpr : Expr → Except PyErr PyVal
  | Expr.num v => Except.ok (PyVal.num v)
  | Expr.strLit s => Except.ok (PyVal.str s)
  | Expr.neg a =>
    match evalExpr a with
    | Except.ok (PyVal.num v) => Except.ok (PyVal.num (negNum v))
    | Except.ok (PyVal.str _) => Except.error (PyErr.exc "bad operand type for unary -")
    | Except.error e => Except.error e
  | Expr.add a b =>
    match evalExpr a with
    | Except.error e => Except.error e
    | Except.ok va =>
      match evalExpr b with
      | Except.error e => Except.error e
      | Except.ok vb =>
        match va, vb with
        | PyVal.num x, PyVal.num y => Except.ok (PyVal.num (addNum x y))
        | PyVal.str x, PyVal.str y => Except.ok (PyVal.str (x ++ y))
        | _, _ => Except.error (PyErr.exc "unsupported operand type(s) for +")
  | Expr.sub a b =>
    match evalExpr a with
    | Except.error e => Except.error e
    | Except.ok va =>
      match evalExpr b with
      | Except.error e => Except.error e
      | Except.ok vb =>
        match va, vb with
        | PyVal.num x, PyVal.num y => Except.ok (PyVal.num (subNum x y))
        | _, _ => Except.error (PyErr.exc "unsupported operand type(s) for -")
  | Expr.mul a b =>
    match evalExpr a with
    | Except.error e => Except.error e
    | Except.ok va =>
      match evalExpr b with
      | Except.error e => Except.error e
      | Except.ok vb =>
        match va, vb with
        | PyVal.num x, PyVal.num y => Except.ok (PyVal.num (mulNum x y))
        | PyVal.str x, PyVal.num (PyNum.pint n) =>
          Except.ok (PyVal.str (strRepeat n.toNat x))
        | PyVal.num (PyNum.pint n), PyVal.str y =>
          Except.ok (PyVal.str (strRepeat n.toNat y))
        | _, _ => Except.error (PyErr.exc "unsupported operand type(s) for *")
  | Expr.div a b =>
    match evalExpr a with
    | Except.error e => Except.error e
    | Except.ok va =>
      match evalExpr b with
      | Except.error e => Except.error e
      | Except.ok vb =>
        match va, vb with
        | PyVal.num x, PyVal.num y =>
          match divNum x y with
          | Except.ok v => Except.ok (PyVal.num v)
          | Except.error m => Except.error (PyErr.exc m)
        | _, _ => Except.error (PyErr.exc "unsupported operand type(s) for /")

/-- Model of the builtin eval restricted to the expression fragment.  The
exact source text exit() calls the site builtin exit, which raises
SystemExit, a BaseException that the except Exception handlers downstream
do not catch; every other input is lexed, parsed and evaluated, with a
failed parse modelling a SyntaxError. -/
def pyEval (s : String) : Except PyErr PyVal :=
  if s = "exit()" then Except.error (PyErr.baseExc "SystemExit")
  else
    match parseExpr s with
    | none => Except.error (PyErr.exc "invalid syntax")
    | some e => evalExpr e

/-- MathInput: one required field, the expression string
(src/main.py lines 10-14). -/
structure MathInput where
  expression : String
deriving DecidableEq

/-- math_tool (src/main.py lines 52-59): evaluates the expression with
eval and returns the result unchanged; an ordinary Exception raised by
eval is re-raised as ValueError with the Invalid expression prefix, while
a BaseException (SystemExit) passes the except Exception clause untouched.
No check is made that the evaluated result is numeric. -/
def math_tool (input : MathInput) : Except PyErr PyVal :=
  match pyEval input.expression with
  | Except.ok v => Except.ok v
  | Except.error (PyErr.exc m) => Except.error (PyErr.exc ("Invalid expression: " ++ m))
  | Except.error (PyErr.baseExc m) => Except.error (PyErr.baseExc m)

/-! ## The unit conversion tool -/

/-- LengthUnit (src/main.py lines 17-24): the enumerated set of length
units accepted by the unit conversion schema. -/
inductive LengthUnit where
  | km
  | m
  | cm
  | miles
  | yards
  | feet
  | inches
deriving DecidableEq

/-- The string value of each LengthUnit member (it is a str-valued Enum). -/
def unitStr : LengthUnit → String
  | LengthUnit.km => "km"
  | LengthUnit.m => "m"
  | LengthUnit.cm => "cm"
  | LengthUnit.miles => "miles"
  | LengthUnit.yards => "yards"
  | LengthUnit.feet => "feet"
  | LengthUnit.inches => "inches"

/-- Inverse of unitStr, used by schema validation of the unit fields. -/
def parseUnit (s : String) : Option LengthUnit :=
  if s = "km" then some LengthUnit.km
  else if s = "m" then some LengthUnit.m
  else if s = "cm" then some LengthUnit.cm
  else if s = "miles" then some LengthUnit.miles
  else if s = "yards" then some LengthUnit.yards
  else if s = "feet" then some LengthUnit.feet
  else if s = "inches" then some LengthUnit.inches
  else none

/-- UnitConversionInput (src/main.py lines 26-29). -/
structure UnitConversionInput where
  value : ℚ
  from_unit : LengthUnit
  to_unit : LengthUnit
deriving DecidableEq

/-- conversion_to_m (src/main.py lines 62-70): conversion factors to
meters, as exact rationals. -/
def conversion_to_m : LengthUnit → ℚ
  | LengthUnit.km => 1000
  | LengthUnit.m => 1
  | LengthUnit.cm => 1 / 100
  | LengthUnit.miles => 160934 / 100
  | LengthUnit.yards => 9144 / 10000
  | LengthUnit.feet => 3048 / 10000
  | LengthUnit.inches => 254 / 10000

/-- Keys of the conversion_to_m dict, for the membership test in
unit_conversion_tool. -/
def conversionKeys : List String :=
  ["km", "m", "cm", "miles", "yards", "feet", "inches"]

/-- unit_conversion_tool (src/main.py lines 72-78): checks both units are
keys of the conversion dict (a str-valued Enum member equals its string,
so the check always passes for validated input), then returns
value * factor(from_unit) / factor(to_unit). -/
def unit_conversion_tool (input : UnitConversionInput) : Except PyErr ℚ :=
  if conversionKeys.contains (unitStr input.from_unit) = false
      ∨ conversionKeys.contains (unitStr input.to_unit) = false then
    Except.error (PyErr.exc "Invalid unit specified")
  else
    let value_in_m := input.value * conversion_to_m input.from_unit
    Except.ok (value_in_m / conversion_to_m input.to_unit)

/-! ## The date tool

A Python datetime.date is identified with its proleptic Gregorian ordinal
(date.toordinal): ordinal 1 is 0001-01-01 and ordinal 3652059 is
9999-12-31, the bounds of the datetime.date type.  date plus or minus a
timedelta raises OverflowError when the result leaves that range, and
timedelta itself is limited to 999999999 days in magnitude. -/

/-- Greatest valid date ordinal (date.max.toordinal()). -/
def maxOrdinal : Int := 3652059

/-- A valid Python date ordinal. -/
def validOrdinal (d : Int) : Prop := 1 ≤ d ∧ d ≤ maxOrdinal

instance (d : Int) : Decidable (validOrdinal d) := by
  unfold validOrdinal
  infer_instance

/-- base plus a timedelta of n days: OverflowError if n exceeds the
timedelta day bound or if the resulting ordinal leaves the date range
(both are ordinary Exceptions, caught by except Exception). -/
def addTimedelta (base n : Int) : Except PyErr Int :=
  if 999999999 < n.natAbs then
    Except.error (PyErr.exc "days out of range for timedelta")
  else if 1 ≤ base + n ∧ base + n ≤ maxOrdinal then
    Except.ok (base + n)
  else
    Except.error (PyErr.exc "date value out of range")

/-- DateOperation (src/main.py lines 32-36). -/
inductive DateOperation where
  | get_current
  | add_days
  | subtract_days
  | diff_days
deriving DecidableEq

/-- DateInput (src/main.py lines 38-42): the three non-operation fields
are optional with default None; when present they hold validated dates
(ordinals) or a validated int. -/
structure DateInput where
  operation : DateOperation
  base_date : Option Int := none
  days : Option Int := none
  second_date : Option Int := none
deriving DecidableEq

/-- Structured result of date_tool before rendering: an ISO date string
(kept as the date ordinal it denotes) or a string-formatted integer. -/
inductive DateResult where
  | dateVal (ord : Int)
  | intVal (n : Int)
deriving DecidableEq

/-- date_tool (src/main.py lines 80-100).  today is the ambient clock
(date.today()), passed explicitly.  Each operation checks its required
fields and raises ValueError naming them when one is None; the final
invalid-date-operation branch of the source is unreachable here because
DateOperation is the validated enum with exactly the four listed members. -/
def date_tool (today : Int) (input : DateInput) : Except PyErr DateResult :=
  match input.operation with
  | DateOperation.get_current => Except.ok (DateResult.dateVal today)
  | DateOperation.add_days =>
    match input.base_date, input.days with
    | some b, some n => (addTimedelta b n).map DateResult.dateVal
    | _, _ => Except.error (PyErr.exc "base_date and days are required for add_days")
  | DateOperation.subtract_days =>
    match input.base_date, input.days with
    | some b, some n => (addTimedelta b (-n)).map DateResult.dateVal
    | _, _ => Except.error (PyErr.exc "base_date and days are required for subtract_days")
  | DateOperation.diff_days =>
    match input.base_date, input.second_date with
    | some b, some s => Except.ok (DateResult.intVal (s - b))
    | _, _ => Except.error (PyErr.exc "base_date and second_date are required for diff_days")

/-- Gregorian leap year. -/
def isLeap (y : Nat) : Bool := y % 4 = 0 && (y % 100 ≠ 0 || y % 400 = 0)

/-- Days in the given month of the given year. -/
def daysInMonth (y mo : Nat) : Nat :=
  if mo = 2 then (if isLeap y then 29 else 28)
  else if mo = 4 ∨ mo = 6 ∨ mo = 9 ∨ mo = 11 then 30
  else 31

/-- Days in the year before the first day of the given month. -/
def daysBeforeMonth (y mo : Nat) : Nat :=
  (match mo with
   | 1 => 0
   | 2 => 31
   | 3 => 59
   | 4 => 90
   | 5 => 120
   | 6 => 151
   | 7 => 181
   | 8 => 212
   | 9 => 243
   | 10 => 273
   | 11 => 304
   | _ => 334) + (if 2 < mo ∧ isLeap y then 1 else 0)

/-- Proleptic Gregorian ordinal of a calendar date (date.toordinal). -/
def ymdToOrd (y mo d : Nat) : Nat :=
  365 * (y - 1) + (y - 1) / 4 - (y - 1) / 100 + (y - 1) / 400
    + daysBeforeMonth y mo + d

/-- Calendar date of a proleptic Gregorian ordinal (date.fromordinal),
via the standard civil-from-days computation shifted so that all
intermediate quantities are natural numbers. -/
def ordToYmd (ord : Nat) : Nat × Nat × Nat :=
  let z := ord + 305
  let era := z / 146097
  let doe := z % 146097
  let yoe := (doe - doe / 1460 + doe / 36524 - doe / 146097) / 365
  let y0 := yoe + era * 400
  let doy := doe - (365 * yoe + yoe / 4 - yoe / 100)
  let mp := (5 * doy + 2) / 153
  let d := doy - (153 * mp + 2) / 5 + 1
  let mo := if mp < 10 then mp + 3 else mp - 9
  (if mo ≤ 2 then y0 + 1 else y0, mo, d)

/-- Left-pad a string with zeros to the given width. -/
def padZeros (w : Nat) (s : String) : String :=
  String.mk (List.replicate (w - s.length) '0') ++ s

/-- ISO-8601 rendering of a date ordinal (str on a Python date). -/
def isoOfOrdinal (ord : Int) : String :=
  match ordToYmd ord.toNat with
  | (y, mo, d) =>
    padZeros 4 (toString y) ++ "-" ++ padZeros 2 (toString mo) ++ "-"
      ++ padZeros 2 (toString d)

/-- Parse a YYYY-MM-DD string to a date ordinal, rejecting nonexistent
dates (the ISO date acceptance of pydantic date validation, restricted to
the plain format str on a date produces). -/
def parseIso (s : String) : Option Int :=
  match s.toList with
  | [y1, y2, y3, y4, h1, m1, m2, h2, d1, d2] =>
    if (y1.isDigit && y2.isDigit && y3.isDigit && y4.isDigit
        && m1.isDigit && m2.isDigit && d1.isDigit && d2.isDigit
        && h1 = '-' && h2 = '-') = false then none
    else
      let y := natOfDigits [y1, y2, y3, y4]
      let mo := natOfDigits [m1, m2]
      let d := natOfDigits [d1, d2]
      if 1 ≤ y ∧ 1 ≤ mo ∧ mo ≤ 12 ∧ 1 ≤ d ∧ d ≤ daysInMonth y mo then
        some (ymdToOrd y mo d : Int)
      else none
  | _ => none

/-- Rendering of a date_tool result to the string the source returns
(str(new_date) for dates, str(diff) for the day difference). -/
def renderDateResult : DateResult → String
  | DateResult.dateVal o => isoOfOrdinal o
  | DateResult.intVal n => toString n

/-! ## The text analysis tool -/

/-- TextAnalysisInput (src/main.py lines 45-48): case_sensitive defaults
to False. -/
structure TextAnalysisInput where
  text : String
  character : String
  case_sensitive : Bool
deriving DecidableEq

/-- ASCII lowercasing of a string (str.lower on the modelled fragment). -/
def lowerStr (s : String) : String := String.mk (s.toList.map Char.toLower)

/-- Whether the pattern occurs at the head of the list. -/
def firstMatches : List Char → List Char → Bool
  | [], _ => true
  | _ :: _, [] => false
  | p :: ps, c :: cs => p = c && firstMatches ps cs

/-- Count of non-overlapping occurrences of pat, scanning left to right
and skipping past each match, with the Python str.count convention that
the empty pattern matches once at every position including the end (so
the count on a string of length n is n + 1).  The fuel argument only
makes the recursion structural; every step consumes at least one
character, so fuel = length of the scanned list suffices. -/
def countF : Nat → List Char → List Char → Nat
  | _, pat, [] => if pat.isEmpty then 1 else 0
  | 0, _, _ :: _ => 0
  | f + 1, pat, c :: rest =>
    if firstMatches pat (c :: rest) then
      1 + countF f pat (List.drop (pat.length - 1) rest)
    else
      countF f pat rest

/-- Python str.count. -/
def pyCount (s pat : String) : Nat := countF s.toList.length pat.toList s.toList

/-- text_analysis_tool (src/main.py lines 102-109): lowercases both the
text and the character when case_sensitive is false, counts occurrences,
and formats a sentence naming the original character and text. -/
def text_analysis_tool (input : TextAnalysisInput) : String :=
  let text := if input.case_sensitive then input.text else lowerStr input.text
  let character := if input.case_sensitive then input.character else lowerStr input.character
  let count := pyCount text character
  "The character " ++ apos ++ input.character ++ apos ++ " appears "
    ++ toString count ++ " times in " ++ apos ++ input.text ++ apos

/-! ## Schema validation (pydantic model construction from raw params)

Pydantic v2 validation is modelled on the fragment the schemas use:
a required field that is absent fails with a field-required error, a
present field whose value cannot be read at the declared type fails with
a type error, enum fields must hold one of the enumerated strings, date
fields accept ISO YYYY-MM-DD strings, int fields accept integral numbers,
and all validation failures are ordinary Exceptions.  Error texts are
abbreviated one-line forms of the pydantic messages; no claim depends on
their exact wording, only on the Error: normalization downstream. -/

/-- Construct MathInput from raw params. -/
def validateMath (p : Params) : Except String MathInput :=
  match lookupParam p "expression" with
  | some (JsonVal.jstr s) => Except.ok ⟨s⟩
  | some _ => Except.error "expression: Input should be a valid string"
  | none => Except.error "expression: Field required"

/-- Construct UnitConversionInput from raw params. -/
def validateUnitConversion (p : Params) : Except String UnitConversionInput :=
  match lookupParam p "value" with
  | none => Except.error "value: Field required"
  | some (JsonVal.jnum v) =>
    match lookupParam p "from_unit" with
    | none => Except.error "from_unit: Field required"
    | some (JsonVal.jstr fs) =>
      match parseUnit fs with
      | none => Except.error "from_unit: Input should be a valid LengthUnit"
      | some fu =>
        match lookupParam p "to_unit" with
        | none => Except.error "to_unit: Field required"
        | some (JsonVal.jstr ts) =>
          match parseUnit ts with
          | none => Except.error "to_unit: Input should be a valid LengthUnit"
          | some tu => Except.ok ⟨v, fu, tu⟩
        | some _ => Except.error "to_unit: Input should be a valid LengthUnit"
    | some _ => Except.error "from_unit: Input should be a valid LengthUnit"
  | some _ => Except.error "value: Input should be a valid number"

/-- Read an optional date field. -/
def readDateField (p : Params) (key : String) : Except String (Option Int) :=
  match lookupParam p key with
  | none => Except.ok none
  | some (JsonVal.jstr s) =>
    match parseIso s with
    | some o => Except.ok (some o)
    | none => Except.error (key ++ ": Input should be a valid date")
  | some _ => Except.error (key ++ ": Input should be a valid date")

/-- Construct DateInput from raw params. -/
def validateDate (p : Params) : Except String DateInput :=
  match lookupParam p "operation" with
  | none => Except.error "operation: Field required"
  | some (JsonVal.jstr os) =>
    let op? :=
      if os = "get_current" then some DateOperation.get_current
      else if os = "add_days" then some DateOperation.add_days
      else if os = "subtract_days" then some DateOperation.subtract_days
      else if os = "diff_days" then some DateOperation.diff_days
      else none
    match op? with
    | none => Except.error "operation: Input should be a valid DateOperation"
    | some op =>
      match readDateField p "base_date" with
      | Except.error m => Except.error m
      | Except.ok bd =>
        match lookupParam p "days" with
        | some (JsonVal.jnum q) =>
          if isIntQ q then
            match readDateField p "second_date" with
            | Except.error m => Except.error m
            | Except.ok sd => Except.ok ⟨op, bd, some q.num, sd⟩
          else Except.error "days: Input should be a valid integer"
        | some _ => Except.error "days: Input should be a valid integer"
        | none =>
          match readDateField p "second_date" with
          | Except.error m => Except.error m
          | Except.ok sd => Except.ok ⟨op, bd, none, sd⟩
  | some _ => Except.error "operation: Input should be a valid DateOperation"

/-- Construct TextAnalysisInput from raw params; case_sensitive defaults
to false when absent. -/
def validateTextAnalysis (p : Params) : Except String TextAnalysisInput :=
  match lookupParam p "text" with
  | none => Except.error "text: Field required"
  | some (JsonVal.jstr t) =>
    match lookupParam p "character" with
    | none => Except.error "character: Field required"
    | some (JsonVal.jstr c) =>
      match lookupParam p "case_sensitive" with
      | none => Except.ok ⟨t, c, false⟩
      | some (JsonVal.jbool b) => Except.ok ⟨t, c, b⟩
      | some _ => Except.error "case_sensitive: Input should be a valid boolean"
    | some _ => Except.error "character: Input should be a valid string"
  | some _ => Except.error "text: Input should be a valid string"

/-! ## The dispatcher call_tool -/

/-- str on a rational result (str(result) in call_tool).  An integral
value prints as the integer; the rendering of non-integral values
abstracts the Python float repr algorithm (shortest round-tripping
decimal), which no claim depends on. -/
def ratStr (q : ℚ) : String :=
  if q.den = 1 then toString q.num else toString q.num ++ "/" ++ toString q.den

/-- str on a Python number: exact for ints; the float rendering is the
ratStr abstraction. -/
def numStr : PyNum → String
  | PyNum.pint n => toString n
  | PyNum.pfloat q => ratStr q

/-- str on a PyVal (str(math_tool(...)) in call_tool). -/
def pyValStr : PyVal → String
  | PyVal.num v => numStr v
  | PyVal.str s => s

/-- The body of the try block of call_tool (src/main.py lines 157-171):
look up the tool by name, validate the raw params into the input model,
run the tool, and render the result to a string; any raised exception is
an error value.  An unregistered name raises ValueError. -/
def dispatchTool (today : Int) (tool_name : String) (params : Params) :
    Except PyErr String :=
  if tool_name = "math" then
    match validateMath params with
    | Except.error m => Except.error (PyErr.exc m)
    | Except.ok inp =>
      match math_tool inp with
      | Except.ok v => Except.ok (pyValStr v)
      | Except.error e => Except.error e
  else if tool_name = "unit_conversion" then
    match validateUnitConversion params with
    | Except.error m => Except.error (PyErr.exc m)
    | Except.ok inp =>
      match unit_conversion_tool inp with
      | Except.ok q => Except.ok (ratStr q)
      | Except.error e => Except.error e
  else if tool_name = "date_tool" then
    match validateDate params with
    | Except.error m => Except.error (PyErr.exc m)
    | Except.ok inp =>
      match date_tool today inp with
      | Except.ok r => Except.ok (renderDateResult r)
      | Except.error e => Except.error e
  else if tool_name = "text_analysis" then
    match validateTextAnalysis params with
    | Except.error m => Except.error (PyErr.exc m)
    | Except.ok inp => Except.ok (text_analysis_tool inp)
  else Except.error (PyErr.exc ("Unknown tool: " ++ tool_name))

/-- call_tool (src/main.py lines 155-173): runs the dispatch inside
try / except Exception, turning every caught exception into the string
Error: message.  A BaseException outside the Exception hierarchy
(PyErr.baseExc, only SystemExit from eval in this program) is not caught
and propagates to the caller, modelled as the Except.error case. -/
def call_tool (today : Int) (tool_name : String) (params : Params) :
    Except String String :=
  match dispatchTool today tool_name params with
  | Except.ok s => Except.ok s
  | Except.error (PyErr.exc m) => Except.ok ("Error: " ++ m)
  | Except.error (PyErr.baseExc m) => Except.error m

/-! ## The conversation loop -/

/-- A tool-call request inside an assistant turn: call identifier, tool
name, and the argument payload (already decoded from its JSON string). -/
structure ToolCall where
  id : String
  name : String
  args : Params

/-- One assistant turn returned by the external chat service: textual
content and a possibly empty list of tool-call requests. -/
structure AssistantMsg where
  content : String
  tool_calls : List ToolCall

/-- One transcript message: the user seed, an assistant turn, or a
tool-result message tagged with the originating call identifier. -/
inductive Msg where
  | user (content : String)
  | assistant (m : AssistantMsg)
  | tool (tool_call_id : String) (content : String)

/-- Outcome of running the conversation loop against a finite stream of
assistant turns: finished normally with the final transcript and answer,
still awaiting a further turn after consuming the whole stream, or
aborted because a tool call propagated a BaseException (the transcript
argument of aborted is the state at the moment of the raise; the Python
function loses it when the exception unwinds). -/
inductive RunResult where
  | finished (transcript : List Msg) (answer : String)
  | awaiting (transcript : List Msg)
  | aborted (transcript : List Msg) (exc : String)

/-- Transcript carried by a RunResult. -/
def transcriptOf : RunResult → List Msg
  | RunResult.finished t _ => t
  | RunResult.awaiting t => t
  | RunResult.aborted t _ => t

/-- Execute the tool calls of one assistant turn in order, appending one
tool message per call (src/main.py lines 195-207); a propagated
BaseException aborts with the messages appended so far. -/
def execCalls (today : Int) : List ToolCall → List Msg →
    Except (List Msg × String) (List Msg)
  | [], msgs => Except.ok msgs
  | tc :: rest, msgs =>
    match call_tool today tc.name tc.args with
    | Except.ok r => execCalls today rest (msgs ++ [Msg.tool tc.id r])
    | Except.error e => Except.error (msgs, e)

/-- The while-True loop of handle_conversation (src/main.py lines
182-210), driven by the finite stream of assistant turns the external
service returns: append the assistant turn; if it carries tool calls,
execute them in order appending their tool messages and continue,
otherwise stop with the content as the final answer. -/
def runTurns (today : Int) : List AssistantMsg → List Msg → RunResult
  | [], msgs => RunResult.awaiting msgs
  | t :: rest, msgs =>
    let msgs1 := msgs ++ [Msg.assistant t]
    if t.tool_calls.isEmpty then RunResult.finished msgs1 t.content
    else
      match execCalls today t.tool_calls msgs1 with
      | Except.ok msgs2 => runTurns today rest msgs2
      | Except.error (ms, e) => RunResult.aborted ms e

/-- handle_conversation (src/main.py lines 177-210): seed the transcript
with the user query and run the loop. -/
def handle_conversation (today : Int) (user_query : String)
    (turns : List AssistantMsg) : RunResult :=
  runTurns today turns [Msg.user user_query]

/-! ## Reference semantics for the math claims -/

/-- Modelled from the spec: the mathematically correct value of an
arithmetic expression over integer literals and + - * with parentheses,
as a big-step relation.  On this sub-fragment Python evaluates in exact
arbitrary-precision int arithmetic; division and decimal literals leave
it for floating point and are treated separately in claim C6. -/
inductive IntArith : Expr → Int → Prop where
  | num (n : Int) : IntArith (Expr.num (PyNum.pint n)) n
  | neg {a : Expr} {x : Int} : IntArith a x → IntArith (Expr.neg a) (-x)
  | add {a b : Expr} {x y : Int} :
      IntArith a x → IntArith b y → IntArith (Expr.add a b) (x + y)
  | sub {a b : Expr} {x y : Int} :
      IntArith a x → IntArith b y → IntArith (Expr.sub a b) (x - y)
  | mul {a b : Expr} {x y : Int} :
      IntArith a x → IntArith b y → IntArith (Expr.mul a b) (x * y)

/-- Well-formedness of a validated DateInput: any date field it carries
holds a valid ordinal (guaranteed by pydantic date validation). -/
def wfDate (input : DateInput) : Bool :=
  Option.all (fun b => decide (validOrdinal b)) input.base_date
    && Option.all (fun s => decide (validOrdinal s)) input.second_date

/-- The tool message a completed tool call appends to the transcript. -/
def toolMsgOf (today : Int) (tc : ToolCall) : Msg :=
  Msg.tool tc.id ((call_tool today tc.name tc.args).toOption.getD "")

/-! ## Helper lemmas -/

/-- The expression evaluator raises only ordinary exceptions; SystemExit
can come only from the modelled exit() builtin, not from evaluation. -/
theorem evalExpr_not_baseExc (e : Expr) : ∀ m, evalExpr e ≠ Except.error (PyErr.baseExc m) := by
  induction e with
  | num q => intro m; simp [evalExpr]
  | strLit s => intro m; simp [evalExpr]
  | neg a ih =>
    intro m
    simp only [evalExpr]
    cases h : evalExpr a with
    | ok v => cases v <;> simp
    | error err =>
      cases err with
      | exc m2 => simp
      | baseExc m2 => exact absurd h (ih m2)
  | add a b iha ihb =>
    intro m
    simp only [evalExpr]
    cases ha : evalExpr a with
    | error ea =>
      cases ea with
      | exc m2 => simp
      | baseExc m2 => exact absurd ha (iha m2)
    | ok va =>
      cases hb : evalExpr b with
      | error eb =>
        cases eb with
        | exc m2 => simp
        | baseExc m2 => exact absurd hb (ihb m2)
      | ok vb => cases va <;> cases vb <;> simp
  | sub a b iha ihb =>
    intro m
    simp only [evalExpr]
    cases ha : evalExpr a with
    | error ea =>
      cases ea with
      | exc m2 => simp
      | baseExc m2 => exact absurd ha (iha m2)
    | ok va =>
      cases hb : evalExpr b with
      | error eb =>
        cases eb with
        | exc m2 => simp
        | baseExc m2 => exact absurd hb (ihb m2)
      | ok vb => cases va <;> cases vb <;> simp
  | mul a b iha ihb =>
    intro m
    simp only [evalExpr]
    cases ha : evalExpr a with
    | error ea =>
      cases ea with
      | exc m2 => simp
      | baseExc m2 => exact absurd ha (iha m2)
    | ok va =>
      cases hb : evalExpr b with
      | error eb =>
        cases eb with
        | exc m2 => simp
        | baseExc m2 => exact absurd hb (ihb m2)
      | ok vb =>
        cases va with
        | num x =>
          cases vb with
          | num y => simp
          | str y => cases x <;> simp
        | str x =>
          cases vb with
          | num y => cases y <;> simp
          | str y => simp
  | div a b iha ihb =>
    intro m
    simp only [evalExpr]
    cases ha : evalExpr a with
    | error ea =>
      cases ea with
      | exc m2 => simp
      | baseExc m2 => exact absurd ha (iha m2)
    | ok va =>
      cases hb : evalExpr b with
      | error eb =>
        cases eb with
        | exc m2 => simp
        | baseExc m2 => exact absurd hb (ihb m2)
      | ok vb =>
        cases va with
        | num x =>
          cases vb with
          | num y => cases hd : divNum x y <;> simp [hd]
          | str y => simp
        | str x => cases vb <;> simp

/-- The executable evaluator agrees with the exact integer reference
semantics on the integer sub-fragment (Python int arithmetic is exact). -/
theorem intArith_evalExpr {e : Expr} {n : Int} (h : IntArith e n) :
    evalExpr e = Except.ok (PyVal.num (PyNum.pint n)) := by
  induction h with
  | num n => rfl
  | neg _ ih => simp [evalExpr, ih, negNum]
  | add _ _ ih1 ih2 => simp [evalExpr, ih1, ih2, addNum]
  | sub _ _ ih1 ih2 => simp [evalExpr, ih1, ih2, subNum]
  | mul _ _ ih1 ih2 => simp [evalExpr, ih1, ih2, mulNum]

/-- The source text exit() is not a parseable expression of the fragment
(its letters are rejected by the lexer; in Python it parses but evaluation
raises SystemExit, which pyEval models directly). -/
theorem parseExpr_exit : parseExpr "exit()" = none := by decide

/-- str.count with the empty pattern returns length + 1. -/
theorem countF_nil (l : List Char) : ∀ f, l.length ≤ f → countF f [] l = l.length + 1 := by
  induction l with
  | nil => intro f hf; cases f <;> rfl
  | cons c rest ih =>
    intro f hf
    cases f with
    | zero => simp at hf
    | succ f2 =>
      have hr : rest.length ≤ f2 := by simpa using hf
      simp [countF, firstMatches, ih f2 hr]
      omega

/-- Every unit string is a key of the conversion dict. -/
theorem conversionKeys_contains (u : LengthUnit) :
    conversionKeys.contains (unitStr u) = true := by
  cases u <;> rfl

/-- No conversion factor is zero. -/
theorem conversion_to_m_ne_zero (u : LengthUnit) : conversion_to_m u ≠ 0 := by
  cases u <;> norm_num [conversion_to_m]

/-- pyEval raises SystemExit as its only BaseException. -/
theorem pyEval_baseExc {s : String} {m : String}
    (h : pyEval s = Except.error (PyErr.baseExc m)) : m = "SystemExit" := by
  unfold pyEval at h
  split_ifs at h with h1
  · injection h with h2
    injection h2 with h3
    exact h3.symm
  · cases hp : parseExpr s with
    | none => rw [hp] at h; simp at h
    | some e => rw [hp] at h; exact absurd h (evalExpr_not_baseExc e m)

/-- math_tool propagates SystemExit as its only BaseException. -/
theorem math_tool_baseExc {inp : MathInput} {m : String}
    (h : math_tool inp = Except.error (PyErr.baseExc m)) : m = "SystemExit" := by
  unfold math_tool at h
  cases hp : pyEval inp.expression with
  | ok v => simp only [hp] at h; simp at h
  | error e =>
    cases e with
    | exc m2 => simp only [hp] at h; simp at h
    | baseExc m2 =>
      simp only [hp] at h
      injection h with h2
      injection h2 with h3
      exact h3 ▸ pyEval_baseExc hp

/-- unit_conversion_tool raises only ordinary exceptions. -/
theorem unit_conversion_not_baseExc (inp : UnitConversionInput) (m : String) :
    unit_conversion_tool inp ≠ Except.error (PyErr.baseExc m) := by
  unfold unit_conversion_tool
  split_ifs <;> simp

/-- addTimedelta raises only ordinary exceptions. -/
theorem addTimedelta_not_baseExc (b n : Int) (m : String) :
    addTimedelta b n ≠ Except.error (PyErr.baseExc m) := by
  unfold addTimedelta
  split_ifs <;> simp

/-- date_tool raises only ordinary exceptions. -/
theorem date_tool_not_baseExc (today : Int) (inp : DateInput) (m : String) :
    date_tool today inp ≠ Except.error (PyErr.baseExc m) := by
  unfold date_tool
  cases inp.operation with
  | get_current => simp
  | add_days =>
    cases hb : inp.base_date with
    | none => cases inp.days <;> simp
    | some b =>
      cases hd : inp.days with
      | none => simp
      | some n =>
        simp only []
        intro hcon
        cases hadd : addTimedelta b n with
        | ok v =>
          simp only [hadd, Except.map] at hcon
          exact Except.noConfusion hcon
        | error e =>
          simp only [hadd, Except.map] at hcon
          injection hcon with h2
          exact addTimedelta_not_baseExc b n m (h2 ▸ hadd)
  | subtract_days =>
    cases hb : inp.base_date with
    | none => cases inp.days <;> simp
    | some b =>
      cases hd : inp.days with
      | none => simp
      | some n =>
        simp only []
        intro hcon
        cases hadd : addTimedelta b (-n) with
        | ok v =>
          simp only [hadd, Except.map] at hcon
          exact Except.noConfusion hcon
        | error e =>
          simp only [hadd, Except.map] at hcon
          injection hcon with h2
          exact addTimedelta_not_baseExc b (-n) m (h2 ▸ hadd)
  | diff_days =>
    cases inp.base_date with
    | none => cases inp.second_date <;> simp
    | some b => cases inp.second_date <;> simp

/-- Only the math branch of the dispatcher can let a BaseException
through, and it is always SystemExit. -/
theorem dispatchTool_baseExc {today : Int} {n : String} {p : Params} {b : String}
    (h : dispatchTool today n p = Except.error (PyErr.baseExc b)) :
    n = "math" ∧ b = "SystemExit" := by
  unfold dispatchTool at h
  split_ifs at h with h1 h2 h3 h4
  · refine ⟨h1, ?_⟩
    cases hv : validateMath p with
    | error m2 => simp only [hv] at h; simp at h
    | ok inp =>
      simp only [hv] at h
      cases hm : math_tool inp with
      | ok v => simp only [hm] at h; simp at h
      | error e =>
        simp only [hm] at h
        cases e with
        | exc m2 => simp at h
        | baseExc m2 =>
          injection h with h2
          injection h2 with h3
          exact h3 ▸ math_tool_baseExc hm
  · exfalso
    cases hv : validateUnitConversion p with
    | error m2 => simp only [hv] at h; simp at h
    | ok inp =>
      simp only [hv] at h
      cases hm : unit_conversion_tool inp with
      | ok v => simp only [hm] at h; simp at h
      | error e =>
        simp only [hm] at h
        cases e with
        | exc m2 => simp at h
        | baseExc m2 =>
          injection h with h2
          injection h2 with h3
          exact unit_conversion_not_baseExc inp b (h3 ▸ hm)
  · exfalso
    cases hv : validateDate p with
    | error m2 => simp only [hv] at h; simp at h
    | ok inp =>
      simp only [hv] at h
      cases hm : date_tool today inp with
      | ok v => simp only [hm] at h; simp at h
      | error e =>
        simp only [hm] at h
        cases e with
        | exc m2 => simp at h
        | baseExc m2 =>
          injection h with h2
          injection h2 with h3
          exact date_tool_not_baseExc today inp b (h3 ▸ hm)
  · exfalso
    cases hv : validateTextAnalysis p with
    | error m2 => simp only [hv] at h; simp at h
    | ok inp => simp only [hv] at h; simp at h
  · simp at h

/-! ## Claim C1 -/

/-- C1 (corrected).  For every tool name and raw argument mapping, a
successful dispatch is returned unchanged, every validation, tool or
unknown-tool failure raised as an ordinary Exception is caught and
returned as the string Error: message, and the only way call_tool can
propagate an exception to its caller is a BaseException (SystemExit)
escaping the math branch, which the except Exception handler of the
source does not catch.  The original claim, that no exception at all can
propagate, fails on the math expression exit(). -/
theorem claim_C1_amended (today : Int) (tool_name : String) (params : Params) :
    (∀ s, dispatchTool today tool_name params = Except.ok s →
       call_tool today tool_name params = Except.ok s) ∧
    (∀ m, dispatchTool today tool_name params = Except.error (PyErr.exc m) →
       call_tool today tool_name params = Except.ok ("Error: " ++ m)) ∧
    (∀ m, call_tool today tool_name params = Except.error m →
       tool_name = "math" ∧ m = "SystemExit") := by
  refine ⟨?_, ?_, ?_⟩
  · intro s hs
    unfold call_tool
    rw [hs]
  · intro m hm
    unfold call_tool
    rw [hm]
  · intro m hm
    unfold call_tool at hm
    cases hd : dispatchTool today tool_name params with
    | ok s => simp only [hd] at hm; exact Except.noConfusion hm
    | error e =>
      cases e with
      | exc m2 => simp only [hd] at hm; exact Except.noConfusion hm
      | baseExc m2 =>
        simp only [hd] at hm
        injection hm with h2
        obtain ⟨hn, hb⟩ := dispatchTool_baseExc hd
        exact ⟨hn, h2 ▸ hb⟩

/-- C1 counterexample: the raw argument mapping sending the math tool the
expression exit() makes call_tool propagate SystemExit to its caller, so
the claim that call_tool never propagates an exception is false. -/
theorem claim_C1_counterexample :
    call_tool 0 "math" [("expression", JsonVal.jstr "exit()")]
      = Except.error "SystemExit" := by
  rfl

/-- C1 witness: the amended theorem applied to a concrete failing call
(an unregistered tool name with an empty mapping). -/
theorem claim_C1_witness :
    call_tool 0 "nonexistent" [] = Except.ok ("Error: " ++ "Unknown tool: nonexistent") :=
  (claim_C1_amended 0 "nonexistent" []).2.1 "Unknown tool: nonexistent" (by rfl)

/-! ## Claim C2 -/

/-- C2 (corrected).  math_tool re-raises as ValueError, with the message
prefix Invalid expression followed by the underlying cause, exactly those
evaluations that raise an ordinary Exception (syntax errors, division by
zero, operand type errors); a syntactically invalid expression other than
exit() always fails that way.  But an expression that evaluates
successfully is returned whatever its type: the original claim that a
non-numeric evaluation result makes math_tool fail is false, because the
source never checks the type of the eval result. -/
theorem claim_C2_amended (e : String) :
    (∀ v, pyEval e = Except.ok v → math_tool ⟨e⟩ = Except.ok v) ∧
    (∀ m, pyEval e = Except.error (PyErr.exc m) →
       math_tool ⟨e⟩ = Except.error (PyErr.exc ("Invalid expression: " ++ m))) ∧
    (∀ m, math_tool ⟨e⟩ = Except.error (PyErr.exc m) →
       ∃ c, pyEval e = Except.error (PyErr.exc c) ∧ m = "Invalid expression: " ++ c) ∧
    (parseExpr e = none → e ≠ "exit()" →
       math_tool ⟨e⟩ = Except.error (PyErr.exc ("Invalid expression: " ++ "invalid syntax"))) := by
  refine ⟨?_, ?_, ?_, ?_⟩
  · intro v hv
    unfold math_tool
    dsimp only
    rw [hv]
  · intro m hm
    unfold math_tool
    dsimp only
    rw [hm]
  · intro m hm
    unfold math_tool at hm
    dsimp only at hm
    cases hp : pyEval e with
    | ok v => simp only [hp] at hm; exact Except.noConfusion hm
    | error err =>
      cases err with
      | exc c =>
        simp only [hp] at hm
        injection hm with h2
        injection h2 with h3
        exact ⟨c, rfl, h3.symm⟩
      | baseExc c => simp only [hp] at hm; simp at hm
  · intro hp hne
    unfold math_tool
    dsimp only
    unfold pyEval
    rw [if_neg hne, hp]

/-- C2 counterexample: the expression consisting of the string literal
abc in quotes evaluates to the non-numeric value abc, and math_tool
returns it instead of failing, refuting the claim that every non-numeric
evaluation result makes the tool fail. -/
theorem claim_C2_counterexample :
    math_tool ⟨apos ++ "abc" ++ apos⟩ = Except.ok (PyVal.str "abc") := by
  rfl

/-- C2 witness: the amended theorem applied to the concrete failing
expression 1/0, whose failure message carries the underlying cause. -/
theorem claim_C2_witness :
    math_tool ⟨"1/0"⟩
      = Except.error (PyErr.exc ("Invalid expression: " ++ "division by zero")) :=
  (claim_C2_amended "1/0").2.1 "division by zero" (by rfl)

/-! ## Claim C3 -/

/-- C3 (confirmed).  For every tool name outside the four registered
names and every argument mapping, call_tool returns the normalized error
string carrying the message Unknown tool: name, and does not throw past
the dispatcher boundary (the result is a returned string, the ok case). -/
theorem claim_C3 (today : Int) (tool_name : String) (params : Params)
    (h1 : tool_name ≠ "math") (h2 : tool_name ≠ "unit_conversion")
    (h3 : tool_name ≠ "date_tool") (h4 : tool_name ≠ "text_analysis") :
    call_tool today tool_name params
      = Except.ok ("Error: " ++ ("Unknown tool: " ++ tool_name)) := by
  unfold call_tool dispatchTool
  rw [if_neg h1, if_neg h2, if_neg h3, if_neg h4]

/-- C3 witness: a concrete unregistered tool name. -/
theorem claim_C3_witness :
    call_tool 0 "weather" [] = Except.ok ("Error: " ++ ("Unknown tool: " ++ "weather")) :=
  claim_C3 0 "weather" [] (by decide) (by decide) (by decide) (by decide)

/-! ## Claim C4 -/

/-- Every unit string is a member of the conversion dict key list. -/
theorem unitStr_mem (u : LengthUnit) : unitStr u ∈ conversionKeys := by
  cases u <;> simp [unitStr, conversionKeys]

/-- C4 (confirmed).  On validated input the unit conversion tool returns
exactly value times factor(from_unit) divided by factor(to_unit) with the
seven fixed factors of conversion_to_m, and converting the result back
from to_unit to from_unit recovers the original value exactly over the
rational arithmetic of the model (the membership test on the conversion
dict always passes, since every enum member equals its key string). -/
theorem claim_C4 (v : ℚ) (a b : LengthUnit) :
    unit_conversion_tool ⟨v, a, b⟩
      = Except.ok (v * conversion_to_m a / conversion_to_m b) ∧
    unit_conversion_tool ⟨v * conversion_to_m a / conversion_to_m b, b, a⟩
      = Except.ok v := by
  constructor
  · unfold unit_conversion_tool
    rw [if_neg]
    simp [unitStr_mem]
  · unfold unit_conversion_tool
    rw [if_neg]
    · dsimp only
      congr 1
      rw [div_mul_cancel₀ _ (conversion_to_m_ne_zero b),
        mul_div_cancel_right₀ _ (conversion_to_m_ne_zero a)]
    · simp [unitStr_mem]

/-! ## Claim C5 -/

/-- C5 (corrected).  Whenever the base date and the shifted date both lie
in the representable date range, add_days produces exactly the date
base + n days and diff_days applied to the base and that result returns
exactly n, sign preserved (diff_days returns second minus base for all
ordinals, so an earlier second date gives a negative count).  The original
unrestricted claim fails because Python dates stop at year 9999: for large
n the add_days step raises OverflowError instead of producing a date, see
the counterexample. -/
theorem claim_C5_amended (today b n : Int) (hb : validOrdinal b)
    (hr : validOrdinal (b + n)) :
    date_tool today
        { operation := DateOperation.add_days, base_date := some b, days := some n }
      = Except.ok (DateResult.dateVal (b + n)) ∧
    date_tool today
        { operation := DateOperation.diff_days, base_date := some b,
          second_date := some (b + n) }
      = Except.ok (DateResult.intVal n) := by
  unfold validOrdinal maxOrdinal at hb hr
  constructor
  · unfold date_tool
    dsimp only
    unfold addTimedelta maxOrdinal
    rw [if_neg (by omega), if_pos (by omega)]
    rfl
  · unfold date_tool
    dsimp only
    congr 2
    omega

/-- C5 counterexample: from base 2023-01-01 (ordinal 738521) adding
10000000 days leaves the representable range, so add_days raises instead
of producing a date, and the claimed composition has no value there. -/
theorem claim_C5_counterexample :
    date_tool 0
        { operation := DateOperation.add_days, base_date := some 738521,
          days := some 10000000 }
      = Except.error (PyErr.exc "date value out of range") := by
  rfl

/-- C5 witness: the spec example, base 2023-01-01 (ordinal 738521) plus 5
days is 2023-01-06 (ordinal 738526) and the day difference back is 5; the
rendered ISO strings of the two ordinals are checked as well. -/
theorem claim_C5_witness :
    date_tool 0
        { operation := DateOperation.add_days, base_date := some 738521, days := some 5 }
      = Except.ok (DateResult.dateVal 738526) ∧
    date_tool 0
        { operation := DateOperation.diff_days, base_date := some 738521,
          second_date := some 738526 }
      = Except.ok (DateResult.intVal 5) ∧
    isoOfOrdinal 738521 = "2023-01-01" ∧ isoOfOrdinal 738526 = "2023-01-06" := by
  have hn : (738521 : Int) + 5 = 738526 := by norm_num
  have h := claim_C5_amended 0 738521 5 (by decide) (by decide)
  rw [hn] at h
  exact ⟨h.1, h.2, by decide, by decide⟩

/-! ## Claim C6 -/

/-- C6 (corrected).  On the integer sub-fragment (integer literals,
+ - *, unary minus, parentheses, standard precedence) the math tool
returns exactly the mathematically correct integer, because Python int
arithmetic is exact at every magnitude; and a division of two such
integer expressions returns the exact rational quotient whenever the
correctly rounded binary64 quotient equals it, i.e. whenever the
quotient is exactly representable as a float.  The original claim
quantified over every expression with division: there the program
computes in floating point and rounds, so the returned value can differ
from the mathematically correct one, see the counterexample 1/3. -/
theorem claim_C6_amended (s : String) :
    (∀ e n, parseExpr s = some e → IntArith e n →
       math_tool ⟨s⟩ = Except.ok (PyVal.num (PyNum.pint n))) ∧
    (∀ a b x y, parseExpr s = some (Expr.div a b) → IntArith a x → IntArith b y →
       y ≠ 0 → roundIntQuot x y = (x : ℚ) / (y : ℚ) →
       math_tool ⟨s⟩ = Except.ok (PyVal.num (PyNum.pfloat ((x : ℚ) / (y : ℚ))))) := by
  constructor
  · intro e n hp hv
    have hne : s ≠ "exit()" := by
      intro hcon
      rw [hcon, parseExpr_exit] at hp
      exact Option.noConfusion hp
    unfold math_tool
    dsimp only
    unfold pyEval
    rw [if_neg hne, hp]
    dsimp only
    rw [intArith_evalExpr hv]
  · intro a b x y hp hva hvb hy hexact
    have hne : s ≠ "exit()" := by
      intro hcon
      rw [hcon, parseExpr_exit] at hp
      exact Option.noConfusion hp
    have hdiv : divNum (PyNum.pint x) (PyNum.pint y)
        = Except.ok (PyNum.pfloat ((x : ℚ) / (y : ℚ))) := by
      unfold divNum
      dsimp only
      rw [if_neg hy, hexact]
    have hev : evalExpr (Expr.div a b)
        = Except.ok (PyVal.num (PyNum.pfloat ((x : ℚ) / (y : ℚ)))) := by
      conv_lhs => unfold evalExpr
      rw [intArith_evalExpr hva, intArith_evalExpr hvb]
      dsimp only
      rw [hdiv]
    unfold math_tool
    dsimp only
    unfold pyEval
    rw [if_neg hne, hp]
    dsimp only
    rw [hev]

/-- C6 counterexample: the in-fragment expression 1/3 makes the tool
return the correctly rounded binary64 quotient 6004799503160661 / 2^54
(the double 0.3333333333333333), which is not the mathematically correct
value 1/3, refuting the claim for expressions whose evaluation rounds. -/
theorem claim_C6_counterexample :
    math_tool ⟨"1/3"⟩
      = Except.ok (PyVal.num (PyNum.pfloat
          ((6004799503160661 : ℚ) / 18014398509481984))) ∧
    (6004799503160661 : ℚ) / 18014398509481984 ≠ 1 / 3 := by
  constructor
  · have hm : math_tool ⟨"1/3"⟩
        = Except.ok (PyVal.num (PyNum.pfloat (roundIntQuot 1 3))) := by rfl
    have hparts : roundQuotParts 1 3 = (6004799503160661, -54) := by decide
    have hq : roundIntQuot 1 3 = (6004799503160661 : ℚ) / 18014398509481984 := by
      simp only [roundIntQuot, hparts]
      norm_num
      rw [show Int.toNat 54 = 54 from rfl]
      norm_num
    rw [hm, hq]
  · norm_num

/-- C6 witness: the spec example 5 + 3 * 2 parses with multiplication
binding tighter and returns exactly the int 11, and the float-exact
division 1/4 returns exactly one quarter. -/
theorem claim_C6_witness :
    math_tool ⟨"5 + 3 * 2"⟩ = Except.ok (PyVal.num (PyNum.pint 11)) ∧
    math_tool ⟨"1/4"⟩ = Except.ok (PyVal.num (PyNum.pfloat (1 / 4))) := by
  constructor
  · have h := (claim_C6_amended "5 + 3 * 2").1
      (Expr.add (Expr.num (PyNum.pint 5))
        (Expr.mul (Expr.num (PyNum.pint 3)) (Expr.num (PyNum.pint 2))))
      (5 + 3 * 2) (by decide)
      (IntArith.add (IntArith.num 5) (IntArith.mul (IntArith.num 3) (IntArith.num 2)))
    norm_num at h
    exact h
  · have hparts : roundQuotParts 1 4 = (4503599627370496, -54) := by decide
    have hexact : roundIntQuot 1 4 = ((1 : Int) : ℚ) / ((4 : Int) : ℚ) := by
      simp only [roundIntQuot, hparts]
      norm_num
      rw [show Int.toNat 54 = 54 from rfl]
      norm_num
    have h := (claim_C6_amended "1/4").2
      (Expr.num (PyNum.pint 1)) (Expr.num (PyNum.pint 4)) 1 4
      (by decide) (IntArith.num 1) (IntArith.num 4) (by norm_num) hexact
    norm_num at h
    exact h

/-! ## Claim C7 -/

/-- A well-formed DateInput with a base date has it in range. -/
theorem wfDate_base {input : DateInput} {b : Int} (hwf : wfDate input = true)
    (hb : input.base_date = some b) : validOrdinal b := by
  unfold wfDate at hwf
  rw [hb] at hwf
  simp [Option.all] at hwf
  exact hwf.1

/-- C7 (corrected).  Given a validated DateInput (whose date fields are
in range), date_tool succeeds or fails as follows: get_current always
succeeds; add_days and subtract_days fail naming the missing fields
exactly when base_date or days is None, succeed with the shifted date
when it stays in the representable range, and raise an ordinary
exception (OverflowError) when it leaves that range; diff_days fails
naming the missing fields exactly when base_date or second_date is None
and otherwise succeeds with the signed difference.  An operation outside
the four enum members cannot reach date_tool at all, because schema
validation rejects it first, so the invalid-date-operation branch of the
source is dead code; and the original claim that date_tool succeeds
whenever its required fields are present fails on date overflow, see the
counterexample. -/
theorem claim_C7_amended (today : Int) (input : DateInput)
    (hwf : wfDate input = true) :
    (input.operation = DateOperation.get_current →
       date_tool today input = Except.ok (DateResult.dateVal today)) ∧
    (input.operation = DateOperation.add_days →
       ((input.base_date = none ∨ input.days = none) →
          date_tool today input
            = Except.error (PyErr.exc "base_date and days are required for add_days")) ∧
       (∀ b n, input.base_date = some b → input.days = some n →
          (validOrdinal (b + n) →
             date_tool today input = Except.ok (DateResult.dateVal (b + n))) ∧
          (¬ validOrdinal (b + n) →
             ∃ m, date_tool today input = Except.error (PyErr.exc m)))) ∧
    (input.operation = DateOperation.subtract_days →
       ((input.base_date = none ∨ input.days = none) →
          date_tool today input
            = Except.error (PyErr.exc "base_date and days are required for subtract_days")) ∧
       (∀ b n, input.base_date = some b → input.days = some n →
          (validOrdinal (b - n) →
             date_tool today input = Except.ok (DateResult.dateVal (b - n))) ∧
          (¬ validOrdinal (b - n) →
             ∃ m, date_tool today input = Except.error (PyErr.exc m)))) ∧
    (input.operation = DateOperation.diff_days →
       ((input.base_date = none ∨ input.second_date = none) →
          date_tool today input
            = Except.error (PyErr.exc "base_date and second_date are required for diff_days")) ∧
       (∀ b s2, input.base_date = some b → input.second_date = some s2 →
          date_tool today input = Except.ok (DateResult.intVal (s2 - b)))) := by
  refine ⟨?_, ?_, ?_, ?_⟩
  · intro hop
    unfold date_tool
    rw [hop]
  · intro hop
    constructor
    · intro hmiss
      unfold date_tool
      rw [hop]
      cases hbd : input.base_date with
      | none => rfl
      | some b =>
        cases hdy : input.days with
        | none => rfl
        | some n =>
          exfalso
          rcases hmiss with h | h
          · rw [hbd] at h; exact Option.noConfusion h
          · rw [hdy] at h; exact Option.noConfusion h
    · intro b n hbd hdy
      have hb := wfDate_base hwf hbd
      unfold validOrdinal maxOrdinal at hb
      constructor
      · intro hvr
        unfold validOrdinal maxOrdinal at hvr
        unfold date_tool
        rw [hop, hbd, hdy]
        dsimp only
        unfold addTimedelta maxOrdinal
        rw [if_neg (by omega), if_pos (by omega)]
        rfl
      · intro hnvr
        unfold validOrdinal maxOrdinal at hnvr
        unfold date_tool
        rw [hop, hbd, hdy]
        dsimp only
        unfold addTimedelta maxOrdinal
        by_cases h1 : (999999999 : Nat) < n.natAbs
        · rw [if_pos h1]
          exact ⟨_, rfl⟩
        · rw [if_neg h1, if_neg (by omega)]
          exact ⟨_, rfl⟩
  · intro hop
    constructor
    · intro hmiss
      unfold date_tool
      rw [hop]
      cases hbd : input.base_date with
      | none => rfl
      | some b =>
        cases hdy : input.days with
        | none => rfl
        | some n =>
          exfalso
          rcases hmiss with h | h
          · rw [hbd] at h; exact Option.noConfusion h
          · rw [hdy] at h; exact Option.noConfusion h
    · intro b n hbd hdy
      have hb := wfDate_base hwf hbd
      unfold validOrdinal maxOrdinal at hb
      constructor
      · intro hvr
        unfold validOrdinal maxOrdinal at hvr
        unfold date_tool
        rw [hop, hbd, hdy]
        dsimp only
        unfold addTimedelta maxOrdinal
        rw [if_neg (by omega), if_pos (by omega)]
        have : b + -n = b - n := by omega
        rw [this]
        rfl
      · intro hnvr
        unfold validOrdinal maxOrdinal at hnvr
        unfold date_tool
        rw [hop, hbd, hdy]
        dsimp only
        unfold addTimedelta maxOrdinal
        by_cases h1 : (999999999 : Nat) < (-n).natAbs
        · rw [if_pos h1]
          exact ⟨_, rfl⟩
        · rw [if_neg h1, if_neg (by omega)]
          exact ⟨_, rfl⟩
  · intro hop
    constructor
    · intro hmiss
      unfold date_tool
      rw [hop]
      cases hbd : input.base_date with
      | none => rfl
      | some b =>
        cases hsd : input.second_date with
        | none => rfl
        | some s2 =>
          exfalso
          rcases hmiss with h | h
          · rw [hbd] at h; exact Option.noConfusion h
          · rw [hsd] at h; exact Option.noConfusion h
    · intro b s2 hbd hsd
      unfold date_tool
      rw [hop, hbd, hsd]

/-- C7 counterexample: the operation add_days with both required fields
present (base 2023-01-01, days -1000000) still fails, because the shifted
date falls before the representable range, refuting the claim that the
tool succeeds whenever no required field is missing. -/
theorem claim_C7_counterexample :
    date_tool 0
        { operation := DateOperation.add_days, base_date := some 738521,
          days := some (-1000000) }
      = Except.error (PyErr.exc "date value out of range") := by
  rfl

/-- C7 witness: the amended theorem at concrete inputs, one succeeding
add_days call and the diff_days example of the spec (2023-01-01 to
2023-12-31 is 364 days). -/
theorem claim_C7_witness :
    date_tool 0
        { operation := DateOperation.add_days, base_date := some 738521, days := some 4 }
      = Except.ok (DateResult.dateVal 738525) ∧
    date_tool 0
        { operation := DateOperation.diff_days, base_date := some 738521,
          second_date := some 738885 }
      = Except.ok (DateResult.intVal 364) := by
  have h := claim_C7_amended 0
      { operation := DateOperation.add_days, base_date := some 738521, days := some 4 }
      (by decide)
  have h1 := ((h.2.1 rfl).2 738521 4 rfl rfl).1 (by decide)
  have h2 := claim_C7_amended 0
      { operation := DateOperation.diff_days, base_date := some 738521,
        second_date := some 738885 } (by decide)
  have h3 := (h2.2.2.2 rfl).2 738521 738885 rfl rfl
  rw [show (738521 : Int) + 4 = 738525 by norm_num] at h1
  rw [show (738885 : Int) - 738521 = 364 by norm_num] at h3
  exact ⟨h1, h3⟩

/-! ## Claim C8 -/

/-- str.count of the empty pattern in s is length of s plus one. -/
theorem pyCount_empty (s : String) : pyCount s "" = s.length + 1 := by
  show countF s.toList.length [] s.toList = s.length + 1
  rw [countF_nil s.toList s.toList.length (le_refl _)]
  rfl

/-- Lowercasing preserves length. -/
theorem lowerStr_length (s : String) : (lowerStr s).length = s.length := by
  show (s.toList.map Char.toLower).length = s.length
  rw [List.length_map]
  rfl

/-- C8 (confirmed).  Schema validation defaults case_sensitive to false
when the field is absent; the tool lowercases both strings exactly when
case_sensitive is false and counts non-overlapping occurrences, naming
the original unmodified character and text in its output sentence; the
count of r in strawberry with the defaults is 3, the case-sensitive
count of S in Strawberry is 1, and the counting is non-overlapping
(aa occurs twice, not three times, in aaaa). -/
theorem claim_C8 :
    (∀ t c : String,
       validateTextAnalysis [("text", JsonVal.jstr t), ("character", JsonVal.jstr c)]
         = Except.ok ⟨t, c, false⟩) ∧
    (∀ input : TextAnalysisInput,
       text_analysis_tool input
         = "The character " ++ apos ++ input.character ++ apos ++ " appears "
           ++ toString (pyCount
                (if input.case_sensitive then input.text else lowerStr input.text)
                (if input.case_sensitive then input.character else lowerStr input.character))
           ++ " times in " ++ apos ++ input.text ++ apos) ∧
    text_analysis_tool ⟨"strawberry", "r", false⟩
      = "The character " ++ apos ++ "r" ++ apos ++ " appears 3 times in "
        ++ apos ++ "strawberry" ++ apos ∧
    text_analysis_tool ⟨"Strawberry", "S", true⟩
      = "The character " ++ apos ++ "S" ++ apos ++ " appears 1 times in "
        ++ apos ++ "Strawberry" ++ apos ∧
    pyCount "aaaa" "aa" = 2 := by
  refine ⟨fun t c => rfl, fun input => rfl, by decide, by decide, by decide⟩

/-! ## Claim C10 -/

/-- C10 (confirmed).  An empty character string passes validation, and
the reported count is the length of the text plus one, the Python
str.count convention for the empty substring; the call succeeds end to
end through the dispatcher. -/
theorem claim_C10 (today : Int) (t : String) :
    call_tool today "text_analysis"
        [("text", JsonVal.jstr t), ("character", JsonVal.jstr "")]
      = Except.ok ("The character " ++ apos ++ "" ++ apos ++ " appears "
          ++ toString (t.length + 1) ++ " times in " ++ apos ++ t ++ apos) := by
  have h1 : pyCount (lowerStr t) (lowerStr "") = t.length + 1 := by
    rw [show lowerStr "" = "" from rfl, pyCount_empty, lowerStr_length]
  show Except.ok (text_analysis_tool ⟨t, "", false⟩) = _
  unfold text_analysis_tool
  simp only [Bool.false_eq_true, if_false]
  rw [h1]

/-! ## Claim C9 -/

/-- A round whose tool calls all return appends exactly one tool message
per call, in the order the calls were returned. -/
theorem execCalls_ok (today : Int) (calls : List ToolCall) :
    ∀ msgs, (∀ tc ∈ calls, ∃ r, call_tool today tc.name tc.args = Except.ok r) →
      execCalls today calls msgs = Except.ok (msgs ++ calls.map (toolMsgOf today)) := by
  induction calls with
  | nil => intro msgs h; simp [execCalls]
  | cons tc rest ih =>
    intro msgs h
    obtain ⟨r, hr⟩ := h tc (List.mem_cons_self tc rest)
    unfold execCalls
    rw [hr]
    show execCalls today rest (msgs ++ [Msg.tool tc.id r]) = _
    rw [ih (msgs ++ [Msg.tool tc.id r]) (fun tc2 h2 => h tc2 (List.mem_cons_of_mem tc h2))]
    simp [toolMsgOf, hr, Except.toOption]

/-- Whatever happens inside one round, the tool messages are appended
after the transcript passed in. -/
theorem execCalls_extends (today : Int) (calls : List ToolCall) :
    ∀ msgs, (∃ tl, execCalls today calls msgs = Except.ok (msgs ++ tl)) ∨
      (∃ tl e, execCalls today calls msgs = Except.error (msgs ++ tl, e)) := by
  induction calls with
  | nil => intro msgs; exact Or.inl ⟨[], by simp [execCalls]⟩
  | cons tc rest ih =>
    intro msgs
    cases hr : call_tool today tc.name tc.args with
    | ok r =>
      have hstep : execCalls today (tc :: rest) msgs
          = execCalls today rest (msgs ++ [Msg.tool tc.id r]) := by
        conv_lhs => unfold execCalls
        rw [hr]
      rw [hstep]
      rcases ih (msgs ++ [Msg.tool tc.id r]) with ⟨tl, htl⟩ | ⟨tl, e, htl⟩
      · exact Or.inl ⟨Msg.tool tc.id r :: tl, by rw [htl]; simp⟩
      · exact Or.inr ⟨Msg.tool tc.id r :: tl, e, by rw [htl]; simp⟩
    | error e =>
      refine Or.inr ⟨[], e, ?_⟩
      unfold execCalls
      rw [hr]
      simp

/-- The transcript only ever grows: whatever turns the service returns,
the messages passed into the loop stay a prefix of the final transcript. -/
theorem runTurns_extends (today : Int) (turns : List AssistantMsg) :
    ∀ msgs, ∃ tl, transcriptOf (runTurns today turns msgs) = msgs ++ tl := by
  induction turns with
  | nil => intro msgs; exact ⟨[], by simp [runTurns, transcriptOf]⟩
  | cons t rest ih =>
    intro msgs
    unfold runTurns
    by_cases he : t.tool_calls.isEmpty = true
    · rw [if_pos he]
      exact ⟨[Msg.assistant t], rfl⟩
    · rw [if_neg he]
      rcases execCalls_extends today t.tool_calls (msgs ++ [Msg.assistant t]) with
        ⟨tl, htl⟩ | ⟨tl, e, htl⟩
      · obtain ⟨tl2, h2⟩ := ih ((msgs ++ [Msg.assistant t]) ++ tl)
        refine ⟨[Msg.assistant t] ++ (tl ++ tl2), ?_⟩
        rw [htl]
        dsimp only
        rw [h2]
        simp
      · refine ⟨[Msg.assistant t] ++ tl, ?_⟩
        rw [htl]
        dsimp only [transcriptOf]
        simp

/-- C9 (corrected).  The loop terminates exactly at the first assistant
turn carrying no tool calls, surfacing its content; a round whose tool
calls all complete appends one assistant message and then one tool
message per call in order; and the transcript is append-only, the
incoming messages staying a prefix of the final transcript, starting from
the seeded user message.  The original claim is refuted by a round
containing a tool call that escapes the dispatcher (math exit()): the
conversation aborts mid-round and the remaining tool messages of that
round are never appended, see the counterexample. -/
theorem claim_C9_amended (today : Int) (q : String) (t : AssistantMsg)
    (rest : List AssistantMsg) (msgs : List Msg) :
    (t.tool_calls = [] →
       runTurns today (t :: rest) msgs
         = RunResult.finished (msgs ++ [Msg.assistant t]) t.content) ∧
    (t.tool_calls ≠ [] →
       (∀ tc ∈ t.tool_calls, ∃ r, call_tool today tc.name tc.args = Except.ok r) →
       runTurns today (t :: rest) msgs
         = runTurns today rest
             (msgs ++ [Msg.assistant t] ++ t.tool_calls.map (toolMsgOf today))) ∧
    (∀ turns : List AssistantMsg, ∃ tl,
       transcriptOf (runTurns today turns msgs) = msgs ++ tl) ∧
    (∃ tl, transcriptOf (handle_conversation today q (t :: rest))
       = Msg.user q :: tl) := by
  refine ⟨?_, ?_, fun turns => runTurns_extends today turns msgs, ?_⟩
  · intro he
    unfold runTurns
    rw [if_pos (by rw [he]; rfl)]
  · intro hne hok
    have hne2 : t.tool_calls.isEmpty = false := by
      cases hc : t.tool_calls with
      | nil => exact absurd hc hne
      | cons a as => rfl
    conv_lhs => unfold runTurns
    rw [hne2]
    simp only [Bool.false_eq_true, if_false]
    rw [execCalls_ok today t.tool_calls (msgs ++ [Msg.assistant t]) hok]
  · obtain ⟨tl, h⟩ := runTurns_extends today (t :: rest) [Msg.user q]
    exact ⟨tl, by unfold handle_conversation; rw [h]; rfl⟩

/-- C9 counterexample: a turn whose single tool call is math exit()
aborts the conversation mid-round with SystemExit; the assistant message
was appended but no tool message was, refuting the claim that every round
appends one tool message per tool call of the turn. -/
theorem claim_C9_counterexample :
    handle_conversation 0 "q"
        [{ content := "",
           tool_calls := [{ id := "call_1", name := "math",
                            args := [("expression", JsonVal.jstr "exit()")] }] }]
      = RunResult.aborted
          [Msg.user "q",
           Msg.assistant
             { content := "",
               tool_calls := [{ id := "call_1", name := "math",
                                args := [("expression", JsonVal.jstr "exit()")] }] }]
          "SystemExit" := by
  rfl

/-- C9 witness: the amended theorem applied to a one-turn conversation
whose assistant turn carries no tool calls, which finishes immediately. -/
theorem claim_C9_witness :
    runTurns 0 [{ content := "done", tool_calls := [] }] [Msg.user "hi"]
      = RunResult.finished
          [Msg.user "hi", Msg.assistant { content := "done", tool_calls := [] }]
          "done" :=
  (claim_C9_amended 0 "hi" { content := "done", tool_calls := [] } [] [Msg.user "hi"]).1 rfl
